import Mathlib

/-!
Verification development for the countdown repository.

The repository holds two variants of a p5.js sketch that renders a countdown:

* src/sketch.js counts down to local midnight of April 11 (rolling to the
  next year when that instant is past at startup).
* src/unnamed/part_000 counts down to 100 days after January 1 and in
  addition rotates through a fixed font list on every tick where a digit
  changed.

Both variants keep module-level state (current field values, previous field
values used for change detection, animation pulse flags, a last-sample
watermark) that we embed as explicit state records.  Instants are epoch
milliseconds, embedded as Int; the JavaScript arithmetic on them
(Math.floor of a positive quotient, the remainder operator on positive
operands) coincides with Int division and Int emod, which is what the Lean
operators / and % denote.  The host Date API (local-calendar construction
and year extraction) is a boundary collaborator and is embedded as a record
of functions.  The deferred 200ms pulse-reset callbacks are external to the
synchronous functions embedded here; a state in which a pulse flag is false
models the situation after such a reset fired.
-/

namespace Sketch

/-- Module-level countdown state of src/sketch.js: the four displayed
fields, the previous values recorded for change detection (initialized to
the sentinel -1), and the four animation pulse flags. -/
structure CountdownState where
  days : Int
  hours : Int
  minutes : Int
  seconds : Int
  prevDays : Int
  prevHours : Int
  prevMinutes : Int
  prevSeconds : Int
  animDays : Bool
  animHours : Bool
  animMinutes : Bool
  animSeconds : Bool
deriving DecidableEq

/-- The initial module-level values of src/sketch.js lines 30-47: fields 0,
previous values -1, pulse flags false. -/
def initState : CountdownState :=
  { days := 0, hours := 0, minutes := 0, seconds := 0,
    prevDays := -1, prevHours := -1, prevMinutes := -1, prevSeconds := -1,
    animDays := false, animHours := false, animMinutes := false,
    animSeconds := false }

/-- updateCountdown of src/sketch.js lines 62-107, as a state transformer.
The wall clock reading Date.now() and targetDate.getTime() are the two Int
arguments; the returned Bool is the completion result of the function.  The
setTimeout calls only schedule the later reset of a pulse flag and have no
synchronous effect, so they do not appear. -/
def updateCountdown (targetDate now : Int) (s : CountdownState) :
    CountdownState × Bool :=
  let difference := targetDate - now
  if difference ≤ 0 then
    ({ s with days := 0, hours := 0, minutes := 0, seconds := 0 }, true)
  else
    let days := difference / (1000 * 60 * 60 * 24)
    let hours := (difference % (1000 * 60 * 60 * 24)) / (1000 * 60 * 60)
    let minutes := (difference % (1000 * 60 * 60)) / (1000 * 60)
    let seconds := (difference % (1000 * 60)) / 1000
    let animDays := if s.prevDays ≠ days then true else s.animDays
    let animHours := if s.prevHours ≠ hours then true else s.animHours
    let animMinutes := if s.prevMinutes ≠ minutes then true else s.animMinutes
    let animSeconds := if s.prevSeconds ≠ seconds then true else s.animSeconds
    ({ days := days, hours := hours, minutes := minutes, seconds := seconds,
       prevDays := days, prevHours := hours, prevMinutes := minutes,
       prevSeconds := seconds,
       animDays := animDays, animHours := animHours,
       animMinutes := animMinutes, animSeconds := animSeconds }, false)

/-- pad of src/sketch.js lines 55-57: String(num).padStart(digits, the zero
character).  padStart left-pads with zeros up to the requested length and
never truncates, which for a natural number num is prepending
digits - length zeros.  The source gives digits the default value 2; calls
of the embedding pass 2 explicitly. -/
def pad (num : Nat) (digits : Nat) : String :=
  String.mk (List.replicate (digits - (toString num).length) '0') ++
    toString num

/-- The host Date API used by getTargetDate, as a boundary collaborator:
getFullYear reads the local calendar year of an epoch-millisecond instant,
and newLocalDate builds the epoch-millisecond instant of local midnight of
a given (year, zero-indexed month, day). -/
structure DateEnv where
  getFullYear : Int → Int
  newLocalDate : Int → Int → Int → Int

/-- getTargetDate of src/sketch.js lines 12-25: local midnight of April 11
(month index 3) of the current year, or of the next year when that instant
is already strictly past now. -/
def getTargetDate (env : DateEnv) (now : Int) : Int :=
  let currentYear := env.getFullYear now
  let april11ThisYear := env.newLocalDate currentYear 3 11
  if april11ThisYear < now then
    env.newLocalDate (currentYear + 1) 3 11
  else
    april11ThisYear

/-- The sampling throttle constant updateInterval of src/sketch.js line 50. -/
def updateInterval : Int := 250

/-- The module-level state touched by the draw callback: the fixed target
instant, the countdown state, and the last-sample watermark. -/
structure ModuleState where
  targetDate : Int
  cd : CountdownState
  lastUpdateTime : Int
deriving DecidableEq

/-- The sampling part of draw, src/sketch.js lines 123-133: when at least
updateInterval milliseconds of the millis() clock have passed since the
watermark, call updateCountdown and advance the watermark; otherwise leave
all state alone and render from the previous sample.  nowMillis is the
millis() reading, dateNow the Date.now() reading inside updateCountdown. -/
def draw (nowMillis dateNow : Int) (s : ModuleState) : ModuleState :=
  if nowMillis - s.lastUpdateTime ≥ updateInterval then
    { s with cd := (updateCountdown s.targetDate dateNow s.cd).1,
             lastUpdateTime := nowMillis }
  else
    s

end Sketch

namespace FontVariant

/-- The fixed font list of src/unnamed/part_000 lines 33-48. -/
def fonts : List String :=
  ["Roboto Mono", "Space Mono", "JetBrains Mono", "Fira Code",
   "Source Code Pro", "IBM Plex Mono", "PT Mono", "Share Tech Mono",
   "VT323", "Orbitron", "Rajdhani", "Quantico", "Courier New", "monospace"]

/-- The font rotation state of src/unnamed/part_000 lines 51-52:
currentFontIndex starts at 0 and previousFontIndex at the sentinel -1. -/
structure FontState where
  currentFontIndex : Nat
  previousFontIndex : Int
deriving DecidableEq

/-- The initial font rotation state. -/
def initFontState : FontState :=
  { currentFontIndex := 0, previousFontIndex := -1 }

/-- getNextFont of src/unnamed/part_000 lines 81-92: advance the index
cyclically; if the advanced index equals previousFontIndex and the list has
more than one entry, advance once more; record the result as
previousFontIndex and return the font at the resulting index.  The list the
source reads from module scope is passed as the fontList argument. -/
def getNextFont (fontList : List String) (fs : FontState) :
    FontState × String :=
  let currentFontIndex := (fs.currentFontIndex + 1) % fontList.length
  let currentFontIndex :=
    if (currentFontIndex : Int) = fs.previousFontIndex ∧ 1 < fontList.length
    then (currentFontIndex + 1) % fontList.length
    else currentFontIndex
  ({ currentFontIndex := currentFontIndex,
     previousFontIndex := (currentFontIndex : Int) },
   fontList.getD currentFontIndex "")

/-- Module-level countdown state of src/unnamed/part_000: the same fields
as the sketch.js variant plus the font rotation state and the currently
selected font name. -/
structure CountdownState where
  days : Int
  hours : Int
  minutes : Int
  seconds : Int
  prevDays : Int
  prevHours : Int
  prevMinutes : Int
  prevSeconds : Int
  animDays : Bool
  animHours : Bool
  animMinutes : Bool
  animSeconds : Bool
  currentFontIndex : Nat
  previousFontIndex : Int
  currentFont : String
deriving DecidableEq

/-- updateCountdown of src/unnamed/part_000 lines 104-162.  Identical time
arithmetic to the sketch.js variant; additionally, when any of the four
values differs from its recorded previous value, the pulse updates run and
getNextFont is called once, its result stored in the font fields. -/
def updateCountdown (targetDate now : Int) (s : CountdownState) :
    CountdownState × Bool :=
  let difference := targetDate - now
  if difference ≤ 0 then
    ({ s with days := 0, hours := 0, minutes := 0, seconds := 0 }, true)
  else
    let days := difference / (1000 * 60 * 60 * 24)
    let hours := (difference % (1000 * 60 * 60 * 24)) / (1000 * 60 * 60)
    let minutes := (difference % (1000 * 60 * 60)) / (1000 * 60)
    let seconds := (difference % (1000 * 60)) / 1000
    let hasChanged := s.prevDays ≠ days ∨ s.prevHours ≠ hours ∨
      s.prevMinutes ≠ minutes ∨ s.prevSeconds ≠ seconds
    let s1 :=
      if hasChanged then
        { s with
          animDays := if s.prevDays ≠ days then true else s.animDays,
          animHours := if s.prevHours ≠ hours then true else s.animHours,
          animMinutes :=
            if s.prevMinutes ≠ minutes then true else s.animMinutes,
          animSeconds :=
            if s.prevSeconds ≠ seconds then true else s.animSeconds }
      else s
    let s2 :=
      if hasChanged then
        let fr := getNextFont fonts
          { currentFontIndex := s1.currentFontIndex,
            previousFontIndex := s1.previousFontIndex }
        { s1 with currentFontIndex := fr.1.currentFontIndex,
                  previousFontIndex := fr.1.previousFontIndex,
                  currentFont := fr.2 }
      else s1
    ({ s2 with days := days, hours := hours, minutes := minutes,
               seconds := seconds,
               prevDays := days, prevHours := hours, prevMinutes := minutes,
               prevSeconds := seconds }, false)

/-- The sampling throttle constant updateInterval of src/unnamed/part_000
line 76. -/
def updateInterval : Int := 250

/-- The module-level state touched by the draw callback of the font
variant. -/
structure ModuleState where
  targetDate : Int
  cd : CountdownState
  lastUpdateTime : Int
deriving DecidableEq

/-- The sampling part of draw, src/unnamed/part_000 lines 181-191, with the
same throttle structure as the sketch.js variant. -/
def draw (nowMillis dateNow : Int) (s : ModuleState) : ModuleState :=
  if nowMillis - s.lastUpdateTime ≥ updateInterval then
    { s with cd := (updateCountdown s.targetDate dateNow s.cd).1,
             lastUpdateTime := nowMillis }
  else
    s

end FontVariant

/-- C1: for a sampling instant strictly before the target, updateCountdown
of src/sketch.js sets days, hours, minutes and seconds to the floor
decomposition of the millisecond difference, all four values are
non-negative, and the total seconds they encode satisfy
total <= floor(diff / 1000) <= total + 1. -/
theorem C1_floor_decomposition (targetDate now : Int)
    (s : Sketch.CountdownState) (h : now < targetDate) :
    (Sketch.updateCountdown targetDate now s).1.days =
      (targetDate - now) / 86400000 ∧
    (Sketch.updateCountdown targetDate now s).1.hours =
      (targetDate - now) % 86400000 / 3600000 ∧
    (Sketch.updateCountdown targetDate now s).1.minutes =
      (targetDate - now) % 3600000 / 60000 ∧
    (Sketch.updateCountdown targetDate now s).1.seconds =
      (targetDate - now) % 60000 / 1000 ∧
    0 ≤ (Sketch.updateCountdown targetDate now s).1.days ∧
    0 ≤ (Sketch.updateCountdown targetDate now s).1.hours ∧
    0 ≤ (Sketch.updateCountdown targetDate now s).1.minutes ∧
    0 ≤ (Sketch.updateCountdown targetDate now s).1.seconds ∧
    (Sketch.updateCountdown targetDate now s).1.days * 86400 +
      (Sketch.updateCountdown targetDate now s).1.hours * 3600 +
      (Sketch.updateCountdown targetDate now s).1.minutes * 60 +
      (Sketch.updateCountdown targetDate now s).1.seconds ≤
      (targetDate - now) / 1000 ∧
    (targetDate - now) / 1000 ≤
      (Sketch.updateCountdown targetDate now s).1.days * 86400 +
      (Sketch.updateCountdown targetDate now s).1.hours * 3600 +
      (Sketch.updateCountdown targetDate now s).1.minutes * 60 +
      (Sketch.updateCountdown targetDate now s).1.seconds + 1 := by
  have hpos : ¬ (targetDate - now ≤ 0) := by omega
  simp only [Sketch.updateCountdown, if_neg hpos]
  omega

/-- Witness for C1: sampling 1500ms before the target yields one remaining
second. -/
theorem C1_floor_decomposition_witness :
    (Sketch.updateCountdown 1500 0 Sketch.initState).1.seconds = 1 := by
  have h := (C1_floor_decomposition 1500 0 Sketch.initState (by decide)).2.2.2.1
  omega

/-- C2: once the sampling instant reaches the target, updateCountdown of
src/sketch.js zeroes all four fields and reports completion, and for every
later sampling instant (the clock being non-decreasing, the target fixed)
every subsequent sample again yields all four fields zero and completion,
whatever state it runs from: the fields never re-increase and are never
negative. -/
theorem C2_complete_zero_sticky (targetDate now : Int)
    (s : Sketch.CountdownState) (h : targetDate ≤ now) :
    (Sketch.updateCountdown targetDate now s).1.days = 0 ∧
    (Sketch.updateCountdown targetDate now s).1.hours = 0 ∧
    (Sketch.updateCountdown targetDate now s).1.minutes = 0 ∧
    (Sketch.updateCountdown targetDate now s).1.seconds = 0 ∧
    (Sketch.updateCountdown targetDate now s).2 = true ∧
    (∀ now2 : Int, ∀ s2 : Sketch.CountdownState, now ≤ now2 →
      (Sketch.updateCountdown targetDate now2 s2).1.days = 0 ∧
      (Sketch.updateCountdown targetDate now2 s2).1.hours = 0 ∧
      (Sketch.updateCountdown targetDate now2 s2).1.minutes = 0 ∧
      (Sketch.updateCountdown targetDate now2 s2).1.seconds = 0 ∧
      (Sketch.updateCountdown targetDate now2 s2).2 = true) := by
  have main : ∀ m : Int, targetDate ≤ m → ∀ s3 : Sketch.CountdownState,
      (Sketch.updateCountdown targetDate m s3).1.days = 0 ∧
      (Sketch.updateCountdown targetDate m s3).1.hours = 0 ∧
      (Sketch.updateCountdown targetDate m s3).1.minutes = 0 ∧
      (Sketch.updateCountdown targetDate m s3).1.seconds = 0 ∧
      (Sketch.updateCountdown targetDate m s3).2 = true := by
    intro m hm s3
    have hle : targetDate - m ≤ 0 := by omega
    simp [Sketch.updateCountdown, hle]
  have h0 := main now h s
  exact ⟨h0.1, h0.2.1, h0.2.2.1, h0.2.2.2.1, h0.2.2.2.2,
    fun now2 s2 h2 => main now2 (le_trans h h2) s2⟩

/-- Witness for C2: sampling 1000ms after the target, then again 4000ms
later, both report zero fields and completion. -/
theorem C2_complete_zero_sticky_witness :
    (Sketch.updateCountdown 1000 2000 Sketch.initState).1.seconds = 0 ∧
    (Sketch.updateCountdown 1000 2000 Sketch.initState).2 = true ∧
    (Sketch.updateCountdown 1000 6000 Sketch.initState).1.days = 0 := by
  have h := C2_complete_zero_sticky 1000 2000 Sketch.initState (by decide)
  exact ⟨h.2.2.2.1, h.2.2.2.2.1,
    (h.2.2.2.2.2 6000 Sketch.initState (by decide)).1⟩

/-- C4: for two sampling instants both strictly before the target, the
later sample encodes a total number of remaining seconds no larger than
the earlier sample, whatever states the two calls run from. -/
theorem C4_total_monotone (targetDate now1 now2 : Int)
    (s1 s2 : Sketch.CountdownState)
    (h12 : now1 < now2) (h2 : now2 < targetDate) :
    (Sketch.updateCountdown targetDate now2 s2).1.days * 86400 +
      (Sketch.updateCountdown targetDate now2 s2).1.hours * 3600 +
      (Sketch.updateCountdown targetDate now2 s2).1.minutes * 60 +
      (Sketch.updateCountdown targetDate now2 s2).1.seconds ≤
    (Sketch.updateCountdown targetDate now1 s1).1.days * 86400 +
      (Sketch.updateCountdown targetDate now1 s1).1.hours * 3600 +
      (Sketch.updateCountdown targetDate now1 s1).1.minutes * 60 +
      (Sketch.updateCountdown targetDate now1 s1).1.seconds := by
  have hp1 : ¬ (targetDate - now1 ≤ 0) := by omega
  have hp2 : ¬ (targetDate - now2 ≤ 0) := by omega
  simp only [Sketch.updateCountdown, if_neg hp1, if_neg hp2]
  omega

/-- Witness for C4 at target 100000ms, samples at 0ms and 50000ms. -/
theorem C4_total_monotone_witness :
    (Sketch.updateCountdown 100000 50000 Sketch.initState).1.days * 86400 +
      (Sketch.updateCountdown 100000 50000 Sketch.initState).1.hours * 3600 +
      (Sketch.updateCountdown 100000 50000 Sketch.initState).1.minutes * 60 +
      (Sketch.updateCountdown 100000 50000 Sketch.initState).1.seconds ≤
    (Sketch.updateCountdown 100000 0 Sketch.initState).1.days * 86400 +
      (Sketch.updateCountdown 100000 0 Sketch.initState).1.hours * 3600 +
      (Sketch.updateCountdown 100000 0 Sketch.initState).1.minutes * 60 +
      (Sketch.updateCountdown 100000 0 Sketch.initState).1.seconds :=
  C4_total_monotone 100000 0 50000 Sketch.initState Sketch.initState
    (by decide) (by decide)

namespace FontVariant

/-- The initial module-level values of src/unnamed/part_000 lines 56-73
after the setup initialization of currentFont to the first list entry:
fields 0, previous values -1, pulse flags false, font index 0, previous
font index -1. -/
def initState : CountdownState :=
  { days := 0, hours := 0, minutes := 0, seconds := 0,
    prevDays := -1, prevHours := -1, prevMinutes := -1, prevSeconds := -1,
    animDays := false, animHours := false, animMinutes := false,
    animSeconds := false,
    currentFontIndex := 0, previousFontIndex := -1,
    currentFont := "Roboto Mono" }

end FontVariant

/-- C6: getTargetDate of src/sketch.js returns local midnight of April 11
of the current year, except that when that instant is already strictly in
the past at the startup instant it returns local midnight of April 11 of
the next year; and the draw callback never changes the stored target. -/
theorem C6_target_resolution (env : Sketch.DateEnv) (now : Int)
    (nowMillis dateNow : Int) (s : Sketch.ModuleState) :
    (env.newLocalDate (env.getFullYear now) 3 11 < now →
      Sketch.getTargetDate env now =
        env.newLocalDate (env.getFullYear now + 1) 3 11) ∧
    (now ≤ env.newLocalDate (env.getFullYear now) 3 11 →
      Sketch.getTargetDate env now =
        env.newLocalDate (env.getFullYear now) 3 11) ∧
    (Sketch.draw nowMillis dateNow s).targetDate = s.targetDate := by
  refine ⟨fun h => ?_, fun h => ?_, ?_⟩
  · simp [Sketch.getTargetDate, h]
  · simp [Sketch.getTargetDate, not_lt.mpr h]
  · simp only [Sketch.draw]
    split <;> rfl

/-- Witness for C6 with a concrete Date environment in which April 11 of
the fixed year 2025 is the instant 100 and the startup instant is 42. -/
theorem C6_target_resolution_witness :
    Sketch.getTargetDate
      { getFullYear := fun _ => 2025,
        newLocalDate := fun y _ _ => (y - 2025) * 1000 + 100 } 42 = 100 := by
  have h := (C6_target_resolution
    { getFullYear := fun _ => 2025,
      newLocalDate := fun y _ _ => (y - 2025) * 1000 + 100 } 42 0 0
    { targetDate := 0, cd := Sketch.initState, lastUpdateTime := 0 }).2.1
    (by decide)
  simpa using h

/-- C7: pad with the minimum width 2 left-pads with zeros to at least two
characters and never truncates: the result is the decimal rendering of the
number preceded by zero characters, of length at least 2. -/
theorem C7_pad_min_width (n : Nat) :
    Sketch.pad 5 2 = "05" ∧ Sketch.pad 42 2 = "42" ∧
    Sketch.pad 100 2 = "100" ∧
    2 ≤ (Sketch.pad n 2).length ∧
    ∃ zs : List Char, (∀ c ∈ zs, c = '0') ∧
      Sketch.pad n 2 = String.mk zs ++ toString n := by
  refine ⟨by decide, by decide, by decide, ?_, ?_⟩
  · have hlen : (Sketch.pad n 2).length =
        (2 - (toString n).length) + (toString n).length := by
      simp [Sketch.pad]
    omega
  · exact ⟨List.replicate (2 - (toString n).length) '0',
      fun c hc => List.eq_of_mem_replicate hc, rfl⟩

/-- C8: inside the per-frame draw callback, updateCountdown runs exactly
when at least 250ms have passed since the stored watermark, which is then
advanced to the current clock reading; on any other frame the whole module
state is left unchanged and rendering reuses the previous sample.  Stated
for both variants. -/
theorem C8_draw_throttle (nowMillis dateNow : Int)
    (s : Sketch.ModuleState) (sf : FontVariant.ModuleState) :
    (Sketch.updateInterval ≤ nowMillis - s.lastUpdateTime →
      Sketch.draw nowMillis dateNow s =
        { targetDate := s.targetDate,
          cd := (Sketch.updateCountdown s.targetDate dateNow s.cd).1,
          lastUpdateTime := nowMillis }) ∧
    (nowMillis - s.lastUpdateTime < Sketch.updateInterval →
      Sketch.draw nowMillis dateNow s = s) ∧
    (FontVariant.updateInterval ≤ nowMillis - sf.lastUpdateTime →
      FontVariant.draw nowMillis dateNow sf =
        { targetDate := sf.targetDate,
          cd := (FontVariant.updateCountdown sf.targetDate dateNow sf.cd).1,
          lastUpdateTime := nowMillis }) ∧
    (nowMillis - sf.lastUpdateTime < FontVariant.updateInterval →
      FontVariant.draw nowMillis dateNow sf = sf) := by
  refine ⟨fun h => ?_, fun h => ?_, fun h => ?_, fun h => ?_⟩
  · simp [Sketch.draw, h]
  · simp [Sketch.draw, not_le.mpr h]
  · simp [FontVariant.draw, h]
  · simp [FontVariant.draw, not_le.mpr h]

/-- Witness for C8: with the watermark at 0, a frame at clock 250 samples
and advances the watermark, and a frame at clock 100 changes nothing. -/
theorem C8_draw_throttle_witness :
    Sketch.draw 250 0 { targetDate := 1500, cd := Sketch.initState,
                        lastUpdateTime := 0 } =
      { targetDate := 1500,
        cd := (Sketch.updateCountdown 1500 0 Sketch.initState).1,
        lastUpdateTime := 250 } ∧
    Sketch.draw 100 0 { targetDate := 1500, cd := Sketch.initState,
                        lastUpdateTime := 0 } =
      { targetDate := 1500, cd := Sketch.initState, lastUpdateTime := 0 } := by
  have h := C8_draw_throttle 250 0
    { targetDate := 1500, cd := Sketch.initState, lastUpdateTime := 0 }
    { targetDate := 1500, cd := FontVariant.initState, lastUpdateTime := 0 }
  have h2 := C8_draw_throttle 100 0
    { targetDate := 1500, cd := Sketch.initState, lastUpdateTime := 0 }
    { targetDate := 1500, cd := FontVariant.initState, lastUpdateTime := 0 }
  exact ⟨h.1 (by decide), h2.2.1 (by decide)⟩

/-- C9: a call of updateCountdown with the target reached (difference at
most zero) returns early: it zeroes the four displayed fields and reports
completion, and leaves every other piece of state untouched — the recorded
previous values, all pulse flags, and in the font variant also the font
index, the previous font index and the current font.  So the tick that
first reaches zero raises no pulse flag and advances no font even though
the displayed values just changed. -/
theorem C9_early_return_frame_effect (targetDate now : Int)
    (s : Sketch.CountdownState) (sf : FontVariant.CountdownState)
    (h : targetDate - now ≤ 0) :
    (Sketch.updateCountdown targetDate now s).1.days = 0 ∧
    (Sketch.updateCountdown targetDate now s).1.hours = 0 ∧
    (Sketch.updateCountdown targetDate now s).1.minutes = 0 ∧
    (Sketch.updateCountdown targetDate now s).1.seconds = 0 ∧
    (Sketch.updateCountdown targetDate now s).2 = true ∧
    (Sketch.updateCountdown targetDate now s).1.prevDays = s.prevDays ∧
    (Sketch.updateCountdown targetDate now s).1.prevHours = s.prevHours ∧
    (Sketch.updateCountdown targetDate now s).1.prevMinutes = s.prevMinutes ∧
    (Sketch.updateCountdown targetDate now s).1.prevSeconds = s.prevSeconds ∧
    (Sketch.updateCountdown targetDate now s).1.animDays = s.animDays ∧
    (Sketch.updateCountdown targetDate now s).1.animHours = s.animHours ∧
    (Sketch.updateCountdown targetDate now s).1.animMinutes = s.animMinutes ∧
    (Sketch.updateCountdown targetDate now s).1.animSeconds = s.animSeconds ∧
    (FontVariant.updateCountdown targetDate now sf).1.days = 0 ∧
    (FontVariant.updateCountdown targetDate now sf).1.hours = 0 ∧
    (FontVariant.updateCountdown targetDate now sf).1.minutes = 0 ∧
    (FontVariant.updateCountdown targetDate now sf).1.seconds = 0 ∧
    (FontVariant.updateCountdown targetDate now sf).2 = true ∧
    (FontVariant.updateCountdown targetDate now sf).1.prevDays =
      sf.prevDays ∧
    (FontVariant.updateCountdown targetDate now sf).1.prevHours =
      sf.prevHours ∧
    (FontVariant.updateCountdown targetDate now sf).1.prevMinutes =
      sf.prevMinutes ∧
    (FontVariant.updateCountdown targetDate now sf).1.prevSeconds =
      sf.prevSeconds ∧
    (FontVariant.updateCountdown targetDate now sf).1.animDays =
      sf.animDays ∧
    (FontVariant.updateCountdown targetDate now sf).1.animHours =
      sf.animHours ∧
    (FontVariant.updateCountdown targetDate now sf).1.animMinutes =
      sf.animMinutes ∧
    (FontVariant.updateCountdown targetDate now sf).1.animSeconds =
      sf.animSeconds ∧
    (FontVariant.updateCountdown targetDate now sf).1.currentFontIndex =
      sf.currentFontIndex ∧
    (FontVariant.updateCountdown targetDate now sf).1.previousFontIndex =
      sf.previousFontIndex ∧
    (FontVariant.updateCountdown targetDate now sf).1.currentFont =
      sf.currentFont := by
  simp [Sketch.updateCountdown, FontVariant.updateCountdown, h]

/-- Witness for C9: the tick that reaches the target from a state whose
recorded previous seconds value is 1 zeroes the display but leaves the
recorded value and the cleared pulse flag alone. -/
theorem C9_early_return_frame_effect_witness :
    (Sketch.updateCountdown 1500 1500
      { days := 0, hours := 0, minutes := 0, seconds := 1,
        prevDays := 0, prevHours := 0, prevMinutes := 0, prevSeconds := 1,
        animDays := false, animHours := false, animMinutes := false,
        animSeconds := false }).1.seconds = 0 ∧
    (Sketch.updateCountdown 1500 1500
      { days := 0, hours := 0, minutes := 0, seconds := 1,
        prevDays := 0, prevHours := 0, prevMinutes := 0, prevSeconds := 1,
        animDays := false, animHours := false, animMinutes := false,
        animSeconds := false }).1.prevSeconds = 1 := by
  have h := C9_early_return_frame_effect 1500 1500
    { days := 0, hours := 0, minutes := 0, seconds := 1,
      prevDays := 0, prevHours := 0, prevMinutes := 0, prevSeconds := 1,
      animDays := false, animHours := false, animMinutes := false,
      animSeconds := false } FontVariant.initState (by decide)
  exact ⟨h.2.2.2.1, h.2.2.2.2.2.2.2.2.1⟩

/-- C10: the two variants compute the same countdown arithmetic — for every
target and sampling instant, and whatever states the two calls run from,
updateCountdown of src/sketch.js and updateCountdown of
src/unnamed/part_000 produce identical days, hours, minutes and seconds
values and the same completion result. -/
theorem C10_variants_agree (targetDate now : Int)
    (s : Sketch.CountdownState) (sf : FontVariant.CountdownState) :
    (Sketch.updateCountdown targetDate now s).1.days =
      (FontVariant.updateCountdown targetDate now sf).1.days ∧
    (Sketch.updateCountdown targetDate now s).1.hours =
      (FontVariant.updateCountdown targetDate now sf).1.hours ∧
    (Sketch.updateCountdown targetDate now s).1.minutes =
      (FontVariant.updateCountdown targetDate now sf).1.minutes ∧
    (Sketch.updateCountdown targetDate now s).1.seconds =
      (FontVariant.updateCountdown targetDate now sf).1.seconds ∧
    (Sketch.updateCountdown targetDate now s).2 =
      (FontVariant.updateCountdown targetDate now sf).2 := by
  by_cases h : targetDate - now ≤ 0 <;>
    simp [Sketch.updateCountdown, FontVariant.updateCountdown, h]

/-- C3 counterexample: at the tick that reaches the target, the newly
computed seconds value (0) differs from the value recorded on the previous
call (1), yet the seconds pulse flag is not set — the early return of
updateCountdown skips change detection, so the flag is not set iff the
value differs. -/
theorem C3_counterexample_complete_tick :
    (Sketch.updateCountdown 1500 1500
      { days := 0, hours := 0, minutes := 0, seconds := 1,
        prevDays := 0, prevHours := 0, prevMinutes := 0, prevSeconds := 1,
        animDays := false, animHours := false, animMinutes := false,
        animSeconds := false }).1.seconds = 0 ∧
    (0 : Int) ≠ 1 ∧
    (Sketch.updateCountdown 1500 1500
      { days := 0, hours := 0, minutes := 0, seconds := 1,
        prevDays := 0, prevHours := 0, prevMinutes := 0, prevSeconds := 1,
        animDays := false, animHours := false, animMinutes := false,
        animSeconds := false }).1.animSeconds = false := by
  decide

/-- C3 (amended): for every call of updateCountdown made strictly before
the target, with the pulse flags clear on entry (the 200ms reset timers
clear them between 250ms ticks), each field's pulse flag after the call is
true exactly when the newly computed value differs from the value recorded
on the previous call; and on the very first call made strictly before the
target, the sentinel previous values -1 make all four fields register as
changed.  (At a call at or after the target the early return sets no flag;
see the counterexample.) -/
theorem C3_change_flags_amended (targetDate now : Int)
    (s : Sketch.CountdownState) (h : now < targetDate)
    (hD : s.animDays = false) (hH : s.animHours = false)
    (hM : s.animMinutes = false) (hS : s.animSeconds = false) :
    ((Sketch.updateCountdown targetDate now s).1.animDays = true ↔
      (Sketch.updateCountdown targetDate now s).1.days ≠ s.prevDays) ∧
    ((Sketch.updateCountdown targetDate now s).1.animHours = true ↔
      (Sketch.updateCountdown targetDate now s).1.hours ≠ s.prevHours) ∧
    ((Sketch.updateCountdown targetDate now s).1.animMinutes = true ↔
      (Sketch.updateCountdown targetDate now s).1.minutes ≠ s.prevMinutes) ∧
    ((Sketch.updateCountdown targetDate now s).1.animSeconds = true ↔
      (Sketch.updateCountdown targetDate now s).1.seconds ≠ s.prevSeconds) ∧
    (Sketch.updateCountdown targetDate now Sketch.initState).1.animDays
      = true ∧
    (Sketch.updateCountdown targetDate now Sketch.initState).1.animHours
      = true ∧
    (Sketch.updateCountdown targetDate now Sketch.initState).1.animMinutes
      = true ∧
    (Sketch.updateCountdown targetDate now Sketch.initState).1.animSeconds
      = true := by
  have hpos : ¬ (targetDate - now ≤ 0) := by omega
  have flip : ∀ (a b : Int) (c : Bool), c = false →
      ((if a ≠ b then true else c) = true ↔ b ≠ a) := by
    intro a b c hc
    subst hc
    by_cases hab : a = b
    · subst hab; simp
    · have hba : b ≠ a := Ne.symm hab
      simp [hab, hba]
  simp only [Sketch.updateCountdown, if_neg hpos, Sketch.initState]
  refine ⟨flip _ _ _ hD, flip _ _ _ hH, flip _ _ _ hM, flip _ _ _ hS,
    ?_, ?_, ?_, ?_⟩
  · split
    · rfl
    · rename_i hcond
      exact absurd (by omega) hcond
  · split
    · rfl
    · rename_i hcond
      exact absurd (by omega) hcond
  · split
    · rfl
    · rename_i hcond
      exact absurd (by omega) hcond
  · split
    · rfl
    · rename_i hcond
      exact absurd (by omega) hcond

/-- Witness for C3 (amended): sampling 1500ms before the target from a
state that recorded days 0 and seconds 0 sets the seconds pulse flag (the
value becomes 1) and leaves the days pulse flag clear (the value stays 0). -/
theorem C3_change_flags_amended_witness :
    (Sketch.updateCountdown 1500 0
      { days := 0, hours := 0, minutes := 0, seconds := 0,
        prevDays := 0, prevHours := 0, prevMinutes := 0, prevSeconds := 0,
        animDays := false, animHours := false, animMinutes := false,
        animSeconds := false }).1.animSeconds = true ∧
    (Sketch.updateCountdown 1500 0
      { days := 0, hours := 0, minutes := 0, seconds := 0,
        prevDays := 0, prevHours := 0, prevMinutes := 0, prevSeconds := 0,
        animDays := false, animHours := false, animMinutes := false,
        animSeconds := false }).1.animDays = false := by
  have h := C3_change_flags_amended 1500 0
    { days := 0, hours := 0, minutes := 0, seconds := 0,
      prevDays := 0, prevHours := 0, prevMinutes := 0, prevSeconds := 0,
      animDays := false, animHours := false, animMinutes := false,
      animSeconds := false } (by decide) rfl rfl rfl rfl
  constructor
  · exact h.2.2.2.1.mpr (by decide)
  · have hne := h.1
    by_cases hb : (Sketch.updateCountdown 1500 0
      { days := 0, hours := 0, minutes := 0, seconds := 0,
        prevDays := 0, prevHours := 0, prevMinutes := 0, prevSeconds := 0,
        animDays := false, animHours := false, animMinutes := false,
        animSeconds := false }).1.animDays = true
    · exact absurd (by decide) (hne.mp hb)
    · simpa using hb

/-- The index selected by getNextFont is in range whenever the list is
non-empty: both possible results are remainders modulo the list length. -/
theorem getNextFont_lt (fontList : List String)
    (fs : FontVariant.FontState) (h : 0 < fontList.length) :
    (FontVariant.getNextFont fontList fs).1.currentFontIndex <
      fontList.length := by
  simp only [FontVariant.getNextFont]
  split
  · exact Nat.mod_lt _ h
  · exact Nat.mod_lt _ h

/-- After any call of getNextFont the recorded previous index equals the
selected index. -/
theorem getNextFont_prev_eq (fontList : List String)
    (fs : FontVariant.FontState) :
    (FontVariant.getNextFont fontList fs).1.previousFontIndex =
      ((FontVariant.getNextFont fontList fs).1.currentFontIndex : Int) :=
  rfl

/-- The font returned by getNextFont is the list entry at the selected
index. -/
theorem getNextFont_snd_eq (fontList : List String)
    (fs : FontVariant.FontState) :
    (FontVariant.getNextFont fontList fs).2 =
      fontList.getD (FontVariant.getNextFont fontList fs).1.currentFontIndex
        "" :=
  rfl

/-- From a state whose recorded previous index equals its current index —
which getNextFont itself always establishes — a call of getNextFont on a
list with at least two entries selects an index different from the current
one. -/
theorem getNextFont_step (fontList : List String)
    (fs : FontVariant.FontState) (hlen : 2 ≤ fontList.length)
    (hprev : fs.previousFontIndex = (fs.currentFontIndex : Int))
    (hcur : fs.currentFontIndex < fontList.length) :
    (FontVariant.getNextFont fontList fs).1.currentFontIndex ≠
      fs.currentFontIndex := by
  have hcand : (fs.currentFontIndex + 1) % fontList.length ≠
      fs.currentFontIndex := by
    rcases Nat.lt_or_ge (fs.currentFontIndex + 1) fontList.length with
      hlt | hge
    · rw [Nat.mod_eq_of_lt hlt]
      omega
    · have he : fs.currentFontIndex + 1 = fontList.length := by omega
      rw [he, Nat.mod_self]
      omega
  have hcond : ¬ ((((fs.currentFontIndex + 1) % fontList.length : Nat) :
      Int) = fs.previousFontIndex ∧ 1 < fontList.length) := by
    rintro ⟨he, -⟩
    rw [hprev] at he
    exact hcand (by exact_mod_cast he)
  simp only [FontVariant.getNextFont, if_neg hcond]
  exact hcand

/-- C5 counterexample: over the two-entry list whose entries are both the
string a, two consecutive calls of getNextFont — as driven by two ticks
that each saw a field change — return equal fonts, although the list has
length at least 2: the no-repeat guarantee fails for lists with duplicate
entries. -/
theorem C5_counterexample_duplicate_fonts :
    2 ≤ (["a", "a"] : List String).length ∧
    (FontVariant.getNextFont ["a", "a"]
      ((FontVariant.getNextFont ["a", "a"]
        FontVariant.initFontState).1)).2 =
    (FontVariant.getNextFont ["a", "a"] FontVariant.initFontState).2 := by
  constructor
  · decide
  · rfl

/-- C5 (amended): for every font list with at least two entries that are
pairwise distinct — as the repository list of 14 font names is — and
every starting state, the fonts selected by two consecutive calls of
getNextFont differ: across any sequence of ticks in which at least one
field changed on every tick, no two consecutive selected fonts are equal. -/
theorem C5_no_repeat_amended (fontList : List String)
    (fs : FontVariant.FontState) (hlen : 2 ≤ fontList.length)
    (hnd : fontList.Nodup) :
    (FontVariant.getNextFont fontList
      ((FontVariant.getNextFont fontList fs).1)).2 ≠
    (FontVariant.getNextFont fontList fs).2 := by
  have hn : 0 < fontList.length := by omega
  have h1lt := getNextFont_lt fontList fs hn
  have h1prev := getNextFont_prev_eq fontList fs
  have h2ne := getNextFont_step fontList
    ((FontVariant.getNextFont fontList fs).1) hlen h1prev h1lt
  have h2lt := getNextFont_lt fontList
    ((FontVariant.getNextFont fontList fs).1) hn
  rw [getNextFont_snd_eq fontList ((FontVariant.getNextFont fontList fs).1),
    getNextFont_snd_eq fontList fs]
  intro heq
  rw [List.getD_eq_getElem?_getD, List.getD_eq_getElem?_getD,
    List.getElem?_eq_getElem h2lt, List.getElem?_eq_getElem h1lt] at heq
  simp only [Option.getD_some] at heq
  exact h2ne (hnd.getElem_inj_iff.mp heq)

/-- Witness for C5 (amended): over the repository font list, the first two
selections from the initial state differ. -/
theorem C5_no_repeat_amended_witness :
    (FontVariant.getNextFont FontVariant.fonts
      ((FontVariant.getNextFont FontVariant.fonts
        FontVariant.initFontState).1)).2 ≠
    (FontVariant.getNextFont FontVariant.fonts
      FontVariant.initFontState).2 :=
  C5_no_repeat_amended FontVariant.fonts FontVariant.initFontState
    (by decide) (by decide)
